import Mathlib

/-!
Shallow embedding of the declarative-to-imperative materialization engine of
the astro-maplibre template (src/lib/utils.ts, src/types.ts).

JavaScript values that the source reads with truthiness tests are modelled as
Options over Lean data; `x || y` on strings becomes `if x = "" then y else x`
with the absent case folded in through `Option.getD ""` (in JavaScript both
`undefined` and `""` are falsy, and the source never distinguishes them on
these paths).  Numbers appearing only as opaque payload (coordinates,
longitude/latitude) are carried as their string representation, since no
claim depends on numeric computation.
-/

/-- JavaScript truthiness of an optional string: `undefined` and `""` are
falsy, every other string is truthy. -/
def jsTruthyS (o : Option String) : Bool := o.getD "" != ""

/-- JavaScript `a || b` for strings (with `a` possibly `undefined`). -/
def jsOrS (a : Option String) (b : String) : String :=
  if a.getD "" = "" then b else a.getD ""

/-- JavaScript `a || d` for optional numbers: `undefined` and `0` are falsy. -/
def jsOrNat (a : Option Nat) (d : Nat) : Nat :=
  match a with
  | none => d
  | some n => if n = 0 then d else n

/-! ## Content model (src/types.ts: ContentTag, maplibre event context) -/

/-- The record form of a ContentItem: the optional fields of the object
alternative of `ContentTag`'s value type (src/types.ts lines 157-172).
`else` and `class` are Lean keywords, hence `elseVal` and `cls`.
The declared `children` field is never read by the transformer and is
omitted. -/
structure ItemRec where
  property : Option String := none
  elseVal : Option String := none
  str : Option String := none
  href : Option String := none
  text : Option String := none
  src : Option String := none
  alt : Option String := none
  cls : Option (List String) := none
  id : Option String := none
deriving Repr, DecidableEq

/-- One entry of a tag's item sequence: either a raw string or a record.
(`typeof child === "object"` in the source distinguishes the two.) -/
inductive Item where
  | rawStr (s : String)
  | obj (r : ItemRec)
deriving Repr, DecidableEq

/-- The value under a ContentTag's single key: the source guards with
`Array.isArray(tagContent)`; a non-array value is a plain string. -/
inductive TagContent where
  | strVal (s : String)
  | arr (items : List Item)
deriving Repr, DecidableEq

/-- A ContentTag: a map with a single tag-name key (`Object.keys(tag)[0]`)
and its value.  The single-key object is represented explicitly. -/
structure ContentTag where
  tagName : String
  content : TagContent
deriving Repr, DecidableEq

/-- A map feature as delivered to event handlers: its property map
(maplibre `e.features[i].properties`).  Property values are strings. -/
structure Feature where
  properties : List (String × String)
deriving Repr, DecidableEq

/-- The event context (maplibre `MapLayerMouseEvent`): the features under
the pointer.  An absent or undefined features array is modelled as `[]`
(both make the optional chain `e?.features?.[0]?.properties` falsy). -/
structure MapEvent where
  features : List Feature
deriving Repr, DecidableEq

/-- The optional chain `e?.features?.[0]?.properties` of the source. -/
def firstProperties (e : Option MapEvent) : Option (List (String × String)) :=
  match e with
  | none => none
  | some ev => ev.features.head?.map (fun f => f.properties)

/-! ## Normalized render tree (src/types.ts: HTMLObjectBlock) -/

/-- A NormalizedNode (`HTMLObject` in the source).  Fields the renderer
reads identically whether absent or empty (`class`, `props`, `children`,
via `x || []` / `x || {}`) are plain lists; `style`, `content`, `id`, `key`
keep their absent case because the renderer's truthiness tests distinguish
it (`data.style ?`, `data.id ?`, `data.key ?`).  `props` entries are the
source's one-key-per-entry records, kept as association lists because the
renderer prints `Object.keys(value)` / `Object.values(value)` joined by
commas. -/
inductive HTMLObject where
  | mk (tag : String) (content : Option String) (cls : List String)
       (style : Option (List (String × String)))
       (props : List (List (String × String)))
       (id : Option String) (key : Option String)
       (children : List HTMLObject)
deriving Repr

def HTMLObject.tag : HTMLObject → String
  | .mk t _ _ _ _ _ _ _ => t

def HTMLObject.content : HTMLObject → Option String
  | .mk _ c _ _ _ _ _ _ => c

def HTMLObject.cls : HTMLObject → List String
  | .mk _ _ c _ _ _ _ _ => c

def HTMLObject.style : HTMLObject → Option (List (String × String))
  | .mk _ _ _ s _ _ _ _ => s

def HTMLObject.props : HTMLObject → List (List (String × String))
  | .mk _ _ _ _ p _ _ _ => p

def HTMLObject.id : HTMLObject → Option String
  | .mk _ _ _ _ _ i _ _ => i

def HTMLObject.key : HTMLObject → Option String
  | .mk _ _ _ _ _ _ k _ => k

def HTMLObject.children : HTMLObject → List HTMLObject
  | .mk _ _ _ _ _ _ _ c => c

/-! ## Tree Transformer (src/lib/utils.ts lines 364-442) -/

/-- `resolveContent` of `transformMixedTagToHTMLObject` (lines 383-395):
JavaScript truthiness throughout — an empty `str` falls through, an empty or
absent property value falls through to `else`, an empty or absent `else`
yields `""`.  On a raw string argument every field access yields
`undefined`, so the result is `""`. -/
def resolveContent (e : Option MapEvent) : Item → String
  | .rawStr _ => ""
  | .obj r =>
    if jsTruthyS r.str then r.str.getD ""
    else if jsTruthyS r.property && (firstProperties e).isSome then
      let v := (((firstProperties e).getD []).lookup (r.property.getD "")).getD ""
      if v = "" then r.elseVal.getD "" else v
    else r.elseVal.getD ""

def itemCls : Item → Option (List String)
  | .rawStr _ => none
  | .obj r => r.cls

def itemHref : Item → Option String
  | .rawStr _ => none
  | .obj r => r.href

def itemSrc : Item → Option String
  | .rawStr _ => none
  | .obj r => r.src

def itemAlt : Item → Option String
  | .rawStr _ => none
  | .obj r => r.alt

/-- The source's recursive call in the composite branch is always
`transformMixedTagToHTMLObject({[tagName]: [child]}, e)` — a one-item
sequence, on which the composite branch cannot fire again.  This function
is that call specialized to its one-item argument: the `img`/`iframe` leaf
branch (lines 419-433) followed by the default leaf branch (lines 436-441).
`transform_singleton` below ties it back to the main function. -/
def transformSingle (e : Option MapEvent) (tagName : String) (item : Item) :
    HTMLObject :=
  if tagName = "img" ∨ tagName = "iframe" then
    .mk tagName (some "") ((itemCls item).getD [])
      none
      [[("src", (itemSrc item).getD "")], [("alt", (itemAlt item).getD "")]]
      none none []
  else
    .mk tagName (some (resolveContent e item)) ((itemCls item).getD [])
      none [] none none []

/-- `transformMixedTagToHTMLObject` (lines 364-442).  The `none` result
marks the one input on which the source throws a `TypeError` (an empty item
sequence reaches `tagContent[0].src` / `resolveContent(undefined)` on
`undefined`); every other input produces a node.  The composite branch
(lines 398-416) maps over the whole item sequence — including its first
entry — recursing on object items (`typeof child === "object"`) and
wrapping raw-string items as spans. -/
def transformMixedTagToHTMLObject (t : ContentTag)
    (e : Option MapEvent := none) : Option HTMLObject :=
  match t.content with
  | .strVal _ => some (.mk t.tagName (some "") [] none [] none none [])
  | .arr items =>
    if items.length > 1 then
      some (.mk t.tagName none ((items.head?.bind itemCls).getD [])
        none
        (if jsTruthyS (items.head?.bind itemHref) then
          [[("href", (items.head?.bind itemHref).getD "")]] else [])
        none none
        (items.map (fun child =>
          match child with
          | .obj r => transformSingle e t.tagName (.obj r)
          | .rawStr s =>
            .mk "span" (some (resolveContent e (.rawStr s))) [] none []
              none none [])))
    else
      match items with
      | [] => none
      | item :: _ => some (transformSingle e t.tagName item)

/-! ## Legend and shorthand (src/lib/utils.ts lines 451-497) -/

structure LegendItem where
  color : String
  label : String
deriving Repr, DecidableEq

/-- A Legend input.  `items` is optional so that the malformed case the
source guards against (`!legend.items || !Array.isArray(legend.items)`) is
representable. -/
structure Legend where
  title : Option String := none
  items : Option (List LegendItem) := none
deriving Repr, DecidableEq

/-- The `li` node built for one legend item (lines 470-484). -/
def legendLi (item : LegendItem) : HTMLObject :=
  .mk "li" none [] none [] none none
    [.mk "span" none ["legend-color"] (some [("background-color", item.color)])
       [] none none [],
     .mk "span" (some item.label) ["legend-label"] none [] none none []]

/-- `parseLegend` (lines 451-488).  The title `h3` is guarded by JavaScript
truthiness of `legend.title`, so an empty title produces no `h3`.  The
source's trailing `.filter(Boolean)` removes nothing (every entry is an
object, hence truthy) and is not modelled. -/
def parseLegend (legend : Legend) : Except String HTMLObject :=
  if legend.items.isNone then
    .error "Invalid legend format: must include 'items'."
  else
    .ok (.mk "div" none ["menu-item"] none [] none none
      ((if jsTruthyS legend.title then
          [HTMLObject.mk "h3" (some (legend.title.getD "")) [] none [] none
            none []]
        else []) ++
       [.mk "ul" none [] none [] none none
         ((legend.items.getD []).map legendLi)]))

/-- Input to `parseShorthand`: the only shorthand key the source probes for
is `legend`; an input whose key is anything else has `legend = none`. -/
structure ShorthandData where
  legend : Option Legend := none
deriving Repr, DecidableEq

/-- `parseShorthand` (lines 491-497). -/
def parseShorthand (data : ShorthandData) : Except String (List HTMLObject) :=
  match data.legend with
  | some lg => (parseLegend lg).map (fun o => [o])
  | none => .error "Unsupported shorthand format"

/-! ## Renderer (src/lib/utils.ts lines 499-525) -/

/-- The `clsx` collaborator restricted to how the source calls it: a list of
class strings, whose truthy members are joined by single spaces. -/
def clsxStr (l : List String) : String :=
  String.intercalate " " (l.filter (fun s => s != ""))

/-- `classList` of `renderHTMLObject`: `classes ? class="..." : ""`. -/
def classAttr (cls : List String) : String :=
  if clsxStr cls = "" then "" else "class=\"" ++ clsxStr cls ++ "\""

/-- `styleList` of `renderHTMLObject`: present (possibly `style=""`) exactly
when the node carries a `style` object. -/
def styleAttr (style : Option (List (String × String))) : String :=
  match style with
  | none => ""
  | some st =>
    "style=\"" ++
      String.intercalate ";" (st.map (fun kv => kv.1 ++ ": " ++ kv.2)) ++ "\""

/-- `id` attribute: truthiness of `data.id`. -/
def idAttr (id : Option String) : String :=
  if jsTruthyS id then "id=\"" ++ id.getD "" ++ "\"" else ""

/-- `key` attribute: truthiness of `data.key`. -/
def keyAttr (key : Option String) : String :=
  if jsTruthyS key then "key=\"" ++ key.getD "" ++ "\"" else ""

/-- `props` of `renderHTMLObject`: each entry prints as
`keys=values` (keys and values each comma-joined), entries joined by
spaces.  Note the source puts no quotes around the value. -/
def propsAttr (props : List (List (String × String))) : String :=
  String.intercalate " " (props.map (fun entry =>
    String.intercalate "," (entry.map Prod.fst) ++ "=" ++
    String.intercalate "," (entry.map Prod.snd)))

mutual

/-- `renderHTMLObject` (lines 499-521).  An absent tag (falsy, i.e. `""`)
renders as `""`; otherwise the template
`<tag classList styleList id key props>content children</tag>`
with a single space between each attribute slot. -/
def renderHTMLObject : HTMLObject → String
  | .mk tag content cls style props id key children =>
    if tag = "" then ""
    else
      "<" ++ tag ++ " " ++ classAttr cls ++ " " ++ styleAttr style ++ " " ++
        idAttr id ++ " " ++ keyAttr key ++ " " ++ propsAttr props ++ ">" ++
        content.getD "" ++ renderChildren children ++ "</" ++ tag ++ ">"

/-- `(data.children || []).map(renderHTMLObject).join("")`. -/
def renderChildren : List HTMLObject → String
  | [] => ""
  | c :: cs => renderHTMLObject c ++ renderChildren cs

end

/-- `renderHTMLObjects` (lines 523-525). -/
def renderHTMLObjects (data : List HTMLObject) : String :=
  String.join (data.map renderHTMLObject)

/-! ## Layer specifications (src/types.ts lines 26-136) -/

/-- The `data-type` discriminant of the LayerSpec tagged union. -/
inductive DataType where
  | geojson
  | raster
  | image
  | vector
deriving Repr, DecidableEq

/-- An EventBinding (`MapEvent` interface of src/types.ts lines 127-132):
an event type (`click`, `mousemove`, `mouseenter` or `mouseleave`) and the
content templates evaluated into popup HTML. -/
structure EventBinding where
  etype : String
  content : List ContentTag
deriving Repr, DecidableEq

/-- A LayerSpec (`MapLayer` in the source), with the union's variant fields
merged: `loadMapLayers` reads each of these fields regardless of variant.
The wire-format names `data-type`, `layer-type` and `source-layer` are not
valid Lean identifiers and become `dataType`, `layerType`, `sourceLayer`.
Paint objects are carried as key/value association lists.  The geometry
coordinates of the `image` variant are opaque payload, kept as strings. -/
structure MapLayer where
  dataType : DataType
  id : String
  label : Option String := none
  toggle : Bool := false
  visible : Option Bool := none
  url : Option String := none
  layerType : String := ""
  paint : Option (List (String × String)) := none
  tileSize : Option Nat := none
  coordinates : Option (List (String × String)) := none
  minzoom : Option Nat := none
  maxzoom : Option Nat := none
  sourceLayer : Option String := none
  mouseEvent : List EventBinding := []
deriving Repr, DecidableEq

/-! ## Map-engine state (the maplibre collaborator of spec section 6) -/

/-- A GeoJSON geometry as far as the source touches it. -/
structure GeoGeometry where
  gtype : String
  coordinates : List String
deriving Repr, DecidableEq

/-- A fetched GeoJSON feature.  `Number(...)` coercion of
`properties.longitude` / `properties.latitude` is represented by the raw
property string (an absent property, JavaScript `NaN`, becomes `""`). -/
structure GeoFeature where
  geometry : Option GeoGeometry := none
  properties : List (String × String) := []
deriving Repr, DecidableEq

/-- The per-feature geometry reconstruction of the geojson branch
(src/lib/utils.ts lines 86-108). -/
def completeFeature (f : GeoFeature) : GeoFeature :=
  if f.geometry.isNone then
    let g := GeoGeometry.mk "Point"
      [(f.properties.lookup "longitude").getD "",
       (f.properties.lookup "latitude").getD ""]
    { f with geometry := some g }
  else f

/-- A registered source, by the four `map.addSource` shapes the source
code constructs. -/
inductive SourceRec where
  | geojsonSrc (data : List GeoFeature)
  | rasterSrc (tiles : List String) (tileSize : Nat)
  | imageSrc (url : String) (coordinates : List (String × String))
  | vectorSrc (tiles : List String) (minzoom : Nat) (maxzoom : Nat)
deriving Repr, DecidableEq

/-- A registered layer, as passed to `map.addLayer`. -/
structure LayerRec where
  id : String
  ltype : String
  source : String
  sourceLayer : Option String := none
  paint : List (String × String) := []
  visibility : String
deriving Repr, DecidableEq

/-- One `map.on(type, layerId, handler)` registration. -/
structure HandlerRec where
  etype : String
  layerId : String
deriving Repr, DecidableEq

/-- The map engine's mutable namespace: registered sources and layers (the
engine itself enforces id uniqueness; see `mapWF`) plus the event-handler
subscriptions. -/
structure MapState where
  sources : List (String × SourceRec) := []
  layers : List LayerRec := []
  handlers : List HandlerRec := []
deriving Repr, DecidableEq

/-- `map.getSource(id)` truthiness. -/
def getSource (m : MapState) (id : String) : Bool :=
  (m.sources.lookup id).isSome

/-- `map.getLayer(id)` truthiness. -/
def getLayer (m : MapState) (id : String) : Bool :=
  m.layers.any (fun l => l.id = id)

/-- `map.addSource(id, spec)`. -/
def addSource (m : MapState) (id : String) (s : SourceRec) : MapState :=
  { m with sources := m.sources ++ [(id, s)] }

/-- `map.addLayer(spec)`. -/
def addLayer (m : MapState) (l : LayerRec) : MapState :=
  { m with layers := m.layers ++ [l] }

/-- `map.getLayoutProperty(id, "visibility")`: `undefined` on a missing
layer. -/
def getLayoutVisibility (m : MapState) (id : String) : Option String :=
  (m.layers.find? (fun l => l.id = id)).map (fun l => l.visibility)

/-- `map.setLayoutProperty(id, "visibility", v)`. -/
def setLayoutVisibility (m : MapState) (id : String) (v : String) : MapState :=
  { m with layers := m.layers.map (fun l =>
      if l.id = id then { l with visibility := v } else l) }

/-! ## Layer Materializer (src/lib/utils.ts lines 51-251) -/

/-- Event wiring (lines 222-248): one `map.on(event.type, layer.id, ...)`
subscription per binding, in order.  (The per-layer popup object and the
handlers' firing behaviour are modelled separately for claim C6.) -/
def wireEvents (lay : MapLayer) (m : MapState) : MapState :=
  { m with handlers :=
      m.handlers ++ lay.mouseEvent.map (fun ev => HandlerRec.mk ev.etype lay.id) }

/-- Pass 2 of `loadMapLayers` for one spec (lines 81-249): dispatch on
`data-type`, register source then layer, each guarded by an existence
check, then wire events.  The geojson branch registers inside the fetch
continuation; `fetchEnv` models `fetch(url).then(r => r.json())`, with
`none` the rejected case, in which nothing is registered for that spec
(spec section 7: failures are isolated per spec).  The repeated layout
expression `visibility ? "visible" : layer.visible ? "visible" : "none"`
is inlined per branch exactly as in the source. -/
def processLayer (fetchEnv : String → Option (List GeoFeature))
    (visibility : Bool) (m : MapState) (lay : MapLayer) : MapState :=
  let m1 :=
    match lay.dataType with
    | .geojson =>
      match fetchEnv (lay.url.getD "") with
      | none => m
      | some rawData =>
        let data := rawData.map completeFeature
        let m2 := if getSource m lay.id then m
                  else addSource m lay.id (.geojsonSrc data)
        if getLayer m2 lay.id then m2
        else addLayer m2
          { id := lay.id, ltype := lay.layerType, source := lay.id,
            paint := lay.paint.getD [],
            visibility := if visibility then "visible"
                          else if lay.visible.getD false then "visible"
                          else "none" }
    | .raster =>
      let m2 := if getSource m lay.id then m
                else addSource m lay.id
                  (.rasterSrc [lay.url.getD ""] (jsOrNat lay.tileSize 256))
      if getLayer m2 lay.id then m2
      else addLayer m2
        { id := lay.id, ltype := "raster", source := lay.id,
          paint := lay.paint.getD [],
          visibility := if visibility then "visible"
                        else if lay.visible.getD false then "visible"
                        else "none" }
    | .image =>
      let m2 := if getSource m lay.id then m
                else addSource m lay.id
                  (.imageSrc (lay.url.getD "") (lay.coordinates.getD []))
      if getLayer m2 lay.id then m2
      else addLayer m2
        { id := lay.id, ltype := "raster", source := lay.id,
          paint := lay.paint.getD [],
          visibility := if visibility then "visible"
                        else if lay.visible.getD false then "visible"
                        else "none" }
    | .vector =>
      let m2 := if getSource m lay.id then m
                else addSource m lay.id
                  (.vectorSrc [lay.url.getD ""] (jsOrNat lay.minzoom 0)
                    (jsOrNat lay.maxzoom 22))
      if getLayer m2 lay.id then m2
      else addLayer m2
        { id := lay.id, ltype := lay.layerType, source := lay.id,
          sourceLayer := some (lay.sourceLayer.getD lay.id),
          paint := lay.paint.getD [],
          visibility := if visibility then "visible"
                        else if lay.visible.getD false then "visible"
                        else "none" }
  wireEvents lay m1

/-- A toggle control created by pass 1 (lines 58-79). -/
structure ToggleButton where
  layerId : String
  textContent : String
  className : String
deriving Repr, DecidableEq

/-- Pass 1 of `loadMapLayers`: one control per spec with a truthy `toggle`,
labelled `layer.label ?? layer.id`, active exactly when
`layer.visible === true`.  (The menu container the controls are appended to
is assumed present; its absence only drops the DOM insertion.) -/
def makeToggleButtons (group : List MapLayer) : List ToggleButton :=
  (group.filter (fun l => l.toggle)).map (fun l =>
    ⟨l.id, l.label.getD l.id, if l.visible = some true then "active" else ""⟩)

/-- `loadMapLayers(map, layers, visibility)` (lines 51-251): pass 1 builds
the toggle controls, pass 2 folds the registration over the group's specs
in order. -/
def loadMapLayers (fetchEnv : String → Option (List GeoFeature))
    (m : MapState) (group : List MapLayer) (visibility : Bool := false) :
    MapState × List ToggleButton :=
  (group.foldl (processLayer fetchEnv visibility) m,
   makeToggleButtons group)

/-! ## Toggle-click dynamics (claim C4; src/lib/utils.ts lines 66-74) -/

/-- A toggle control paired with the map it controls. -/
structure C4State where
  mapSt : MapState
  button : ToggleButton
deriving Repr, DecidableEq

/-- The control's `onclick` closure (lines 66-74): read the layer's current
layout visibility, flip it, and set the control's class accordingly. -/
def clickToggle (s : C4State) : C4State :=
  if getLayoutVisibility s.mapSt s.button.layerId = some "visible" then
    ⟨setLayoutVisibility s.mapSt s.button.layerId "none",
     { s.button with className := "" }⟩
  else
    ⟨setLayoutVisibility s.mapSt s.button.layerId "visible",
     { s.button with className := "active" }⟩

/-- The state immediately after `loadMapLayers` on a fresh map with one
spec: the registered map plus that spec's toggle control. -/
def initToggleState (fetchEnv : String → Option (List GeoFeature))
    (lay : MapLayer) (visibility : Bool) : C4State :=
  ⟨(loadMapLayers fetchEnv {} [lay] visibility).1,
   ⟨lay.id, lay.label.getD lay.id,
    if lay.visible = some true then "active" else ""⟩⟩

/-- Visibility consistency: the control carries the active class exactly
when the layer's layout visibility is `"visible"`. -/
def toggleInv (s : C4State) : Prop :=
  (s.button.className = "active") ↔
    (getLayoutVisibility s.mapSt s.button.layerId = some "visible")

/-! ## Event-handler firing (claim C6; src/lib/utils.ts lines 222-248) -/

/-- Handler-wiring state for one layer's popup: the `map.on` subscriptions
made so far and the popup's current HTML (set by
`popup.setLngLat(..).setHTML(..).addTo(map)`). -/
structure WireState where
  handlers : List (String × String) := []
  popupShown : Option String := none
deriving Repr, DecidableEq

/-- Registering one binding: `map.on(event.type, layer.id, handler)`
(line 226). -/
def registerBinding (lid : String) (b : EventBinding) (s : WireState) :
    WireState :=
  { s with handlers := s.handlers ++ [(b.etype, lid)] }

/-- One firing of the handler registered for `b` (lines 226-246): build the
popup HTML from the binding's content templates, show the popup, and — when
the binding's type is `mousemove` — subscribe a further `mouseleave`
handler.  (The `none` branch of the transform, the source's TypeError on an
empty item sequence, cannot fire for well-formed templates and renders as
nothing here.) -/
def fireBinding (lid : String) (b : EventBinding) (e : MapEvent)
    (s : WireState) : WireState :=
  let popupContent := String.join (b.content.map (fun tag =>
    match transformMixedTagToHTMLObject tag (some e) with
    | some o => renderHTMLObject o
    | none => ""))
  let s2 := { s with popupShown := some popupContent }
  if b.etype = "mousemove" then
    { s2 with handlers := s2.handlers ++ [("mouseleave", lid)] }
  else s2

/-- The `mouseleave` subscriptions currently attached for a layer id. -/
def mouseleaveCount (s : WireState) (lid : String) : Nat :=
  (s.handlers.filter (fun h => h.1 = "mouseleave" && h.2 = lid)).length

/-! ## Counting registered ids (claims C3, C7) -/

/-- Number of registered sources under an id. -/
def sCount (m : MapState) (id : String) : Nat :=
  (m.sources.filter (fun p => p.1 = id)).length

/-- Number of registered layers under an id. -/
def lCount (m : MapState) (id : String) : Nat :=
  (m.layers.filter (fun l => l.id = id)).length

/-- The engine-enforced invariant of a real maplibre map: at most one
source and one layer per id (`addSource`/`addLayer` on a duplicate id throw
in the engine, so no reachable real map violates this). -/
def mapWF (m : MapState) : Prop :=
  ∀ id, sCount m id ≤ 1 ∧ lCount m id ≤ 1

/-! ## Concrete inputs used by witnesses and counterexamples -/

/-- The spec's worked example item: `{property: "name", else: "Unknown"}`. -/
def exItemNameElse : ItemRec :=
  { property := some "name", elseVal := some "Unknown" }

/-- Event whose first feature carries `{name: "Lake Park"}`. -/
def exEvLakePark : MapEvent := ⟨[⟨[("name", "Lake Park")]⟩]⟩

/-- Event whose first feature carries no properties (`{}`). -/
def exEvEmptyProps : MapEvent := ⟨[⟨[]⟩]⟩

/-- Event whose first feature carries `{name: ""}` — the property is
present but its value is empty (falsy). -/
def exEvEmptyName : MapEvent := ⟨[⟨[("name", "")]⟩]⟩

/-- Item carrying a literal empty `str` alongside a `property`. -/
def exItemEmptyStr : ItemRec :=
  { str := some "", property := some "name" }

/-- The spec's composite example:
`{a: [{class:["link"], href:"https://x"}, {str:"click here"}]}`. -/
def exCompositeA : ContentTag :=
  ⟨"a", .arr [.obj { cls := some ["link"], href := some "https://x" },
              .obj { str := some "click here" }]⟩

/-- A one-record paragraph template reading property `name`. -/
def exPropertyP : ContentTag :=
  ⟨"p", .arr [.obj { property := some "name" }]⟩

/-- Event list with one feature (properties `{name: "A"}`). -/
def exEvOneFeature : MapEvent := ⟨[⟨[("name", "A")]⟩]⟩

/-- Same first feature as `exEvOneFeature` plus an extra second feature. -/
def exEvTwoFeatures : MapEvent := ⟨[⟨[("name", "A")]⟩, ⟨[("name", "B")]⟩]⟩

/-- A node exercising every attribute slot of the renderer. -/
def exRenderNode : HTMLObject :=
  .mk "p" (some "hi") ["c1", "c2"] (some [("color", "red")])
    [[("href", "u")]] (some "pid") none
    [.mk "span" (some "in") [] none [] none none [],
     .mk "em" none [] none [] none none []]

/-- The spec's legend example: `{title:"Key", items:[{color:"#f00",
label:"Fire"}]}`. -/
def exLegend : Legend := ⟨some "Key", some [⟨"#f00", "Fire"⟩]⟩

/-- A legend whose `title` field is present but empty. -/
def exLegendEmptyTitle : Legend := ⟨some "", some [⟨"#f00", "Fire"⟩]⟩

/-- A shorthand input whose key is not `legend`. -/
def exShorthandOther : ShorthandData := ⟨none⟩

/-- A shorthand input whose legend lacks `items`. -/
def exShorthandNoItems : ShorthandData := ⟨some ⟨some "Key", none⟩⟩

/-- A fetch environment on which every URL resolves to an empty feature
collection. -/
def exFetchEnv : String → Option (List GeoFeature) := fun _ => some []

/-- A raster spec with a toggle control. -/
def exRasterLayer : MapLayer :=
  { dataType := .raster, id := "r1", toggle := true,
    url := some "https://tiles.example/z.png" }

/-- A raster toggle spec whose `visible` field is true. -/
def exVisibleRasterLayer : MapLayer :=
  { dataType := .raster, id := "r2", toggle := true, visible := some true,
    url := some "https://tiles.example/w.png" }

/-- A mousemove binding with an empty content template list. -/
def exMousemoveBinding : EventBinding := ⟨"mousemove", []⟩

/-- An event context with no features, used when firing handlers. -/
def exEvNoFeatures : MapEvent := ⟨[]⟩

/-! # Theorems -/

/-! ## Sanity: the composite branch's recursive call on a one-item sequence -/

/-- The source's recursive call `transformMixedTagToHTMLObject({[tagName]:
[child]}, e)` equals `transformSingle`, as promised in its docstring. -/
theorem transform_singleton (tn : String) (i : Item) (e : Option MapEvent) :
    transformMixedTagToHTMLObject ⟨tn, .arr [i]⟩ e =
      some (transformSingle e tn i) := rfl

/-! ## Claim C1 — property resolution -/

/-- C1 (counterexample): the claim states resolution returns the named
property's value whenever that property is present in the first feature's
map, and returns a carried `str` verbatim with precedence over `property`.
Both fail on the code's truthiness tests: with `{property:"name",
else:"Unknown"}` and first-feature properties `{name:""}` — `name` present
with value `""` — resolution returns `"Unknown"`, not `""`; and with
`{str:"", property:"name"}` over `{name:"Lake Park"}` the carried literal
`str` is not returned verbatim — the property wins. -/
theorem claim_C1_counterexample :
    resolveContent (some exEvEmptyName) (.obj exItemNameElse) = "Unknown" ∧
    resolveContent (some exEvLakePark) (.obj exItemEmptyStr) = "Lake Park" :=
  ⟨rfl, rfl⟩

/-- C1 (amended): with JavaScript truthiness — if the item carries a
non-empty `str`, resolution returns it verbatim.  Else if it carries a
non-empty `property` name and an event context with at least one feature is
supplied, resolution returns the named property's value whenever it is
present with a non-empty value, and otherwise (value absent or empty) the
item's `else` value when present, else the empty string.  Without such an
event context (or without a property), resolution returns `else` when
present, else the empty string. -/
theorem claim_C1_amended (r : ItemRec) (e : Option MapEvent) :
    (jsTruthyS r.str = true → resolveContent e (.obj r) = r.str.getD "") ∧
    (jsTruthyS r.str = false → jsTruthyS r.property = true →
      ∀ props, firstProperties e = some props →
        (((props.lookup (r.property.getD "")).getD "" ≠ "" →
           resolveContent e (.obj r) =
             (props.lookup (r.property.getD "")).getD "") ∧
         ((props.lookup (r.property.getD "")).getD "" = "" →
           resolveContent e (.obj r) = r.elseVal.getD ""))) ∧
    (jsTruthyS r.str = false →
      (jsTruthyS r.property = false ∨ firstProperties e = none) →
      resolveContent e (.obj r) = r.elseVal.getD "") := by
  refine ⟨?_, ?_, ?_⟩
  · intro h
    simp [resolveContent, h]
  · intro h1 h2 props hp
    constructor
    · intro hv
      simp [resolveContent, h1, h2, hp, hv]
    · intro hv
      simp [resolveContent, h1, h2, hp, hv]
  · intro h1 h2
    rcases h2 with h2 | h2 <;> simp [resolveContent, h1, h2]

/-- C1 (witness): the spec's worked example, through the amended theorem —
`{property:"name", else:"Unknown"}` resolves to `"Lake Park"` under a
first feature carrying `{name:"Lake Park"}` and to `"Unknown"` under a
first feature with empty properties. -/
theorem claim_C1_witness :
    resolveContent (some exEvLakePark) (.obj exItemNameElse) = "Lake Park" ∧
    resolveContent (some exEvEmptyProps) (.obj exItemNameElse) = "Unknown" := by
  constructor
  · exact ((claim_C1_amended exItemNameElse (some exEvLakePark)).2.1
      (by decide) (by decide) [("name", "Lake Park")] rfl).1 (by decide)
  · exact ((claim_C1_amended exItemNameElse (some exEvEmptyProps)).2.1
      (by decide) (by decide) [] rfl).2 (by decide)

/-! ## Claim C10 — only the first feature matters -/

/-- Helper: `resolveContent` reads the event context only through
`e?.features?.[0]?.properties`. -/
theorem resolveContent_congr (e1 e2 : Option MapEvent)
    (h : firstProperties e1 = firstProperties e2) (i : Item) :
    resolveContent e1 i = resolveContent e2 i := by
  cases i with
  | rawStr s => rfl
  | obj r => simp only [resolveContent, h]

/-- Helper: the same for the one-item transform. -/
theorem transformSingle_congr (e1 e2 : Option MapEvent)
    (h : firstProperties e1 = firstProperties e2) (tn : String) (i : Item) :
    transformSingle e1 tn i = transformSingle e2 tn i := by
  simp only [transformSingle, resolveContent_congr e1 e2 h]

/-- C10: property interpolation reads only the first feature of the event
context — two event contexts whose features lists have the same first
element produce identical transforms; features at index 1 and beyond never
influence the output. -/
theorem claim_C10 (t : ContentTag) (e1 e2 : MapEvent)
    (h : e1.features.head? = e2.features.head?) :
    transformMixedTagToHTMLObject t (some e1) =
      transformMixedTagToHTMLObject t (some e2) := by
  have hfp : firstProperties (some e1) = firstProperties (some e2) := by
    simp [firstProperties, h]
  have hrc : resolveContent (some e1) = resolveContent (some e2) :=
    funext (resolveContent_congr _ _ hfp)
  have hts : transformSingle (some e1) = transformSingle (some e2) :=
    funext (fun tn => funext (transformSingle_congr _ _ hfp tn))
  obtain ⟨tn, tc⟩ := t
  cases tc with
  | strVal s => rfl
  | arr items => simp only [transformMixedTagToHTMLObject, hrc, hts]

/-- C10 (witness): a template reading property `name` transforms
identically under a one-feature context and under the same context extended
with a second feature. -/
theorem claim_C10_witness :
    transformMixedTagToHTMLObject exPropertyP (some exEvOneFeature) =
      transformMixedTagToHTMLObject exPropertyP (some exEvTwoFeatures) :=
  claim_C10 exPropertyP exEvOneFeature exEvTwoFeatures rfl

/-! ## Claim C2 — composite transform shape -/

/-- C2 (counterexample): on the claim's own example
`{a: [{class:["link"], href:"https://x"}, {str:"click here"}]}` the code
produces TWO children — the first item becomes a child too — and the second
child is an `a` node (object items recurse under the outer tag), not a
`span`; the claim asserts exactly one child, a `span`. -/
theorem claim_C2_counterexample :
    transformMixedTagToHTMLObject exCompositeA none =
      some (.mk "a" none ["link"] none [[("href", "https://x")]] none none
        [.mk "a" (some "") ["link"] none [] none none [],
         .mk "a" (some "click here") [] none [] none none []]) ∧
    (transformMixedTagToHTMLObject exCompositeA none).map
      (fun o => o.children.length) = some 2 ∧
    (transformMixedTagToHTMLObject exCompositeA none).map
      (fun o => o.children.map HTMLObject.tag) = some ["a", "a"] :=
  ⟨rfl, rfl, rfl⟩

/-- C2 (amended): for an item sequence with more than one entry the result
is a composite node whose `class` comes from the first item (empty when it
carries none) and whose props hold a single `href` entry exactly when the
first item carries a non-empty `href`; its children are ALL the items in
order — the first item included: each object item is transformed
recursively as a one-item sequence under the same tag, and each raw-string
item becomes a `span` whose content is the property-resolution of that
string (always empty, since a raw string carries none of the resolution
fields). -/
theorem claim_C2_amended (tn : String) (e : Option MapEvent) (i0 i1 : Item)
    (rest : List Item) :
    transformMixedTagToHTMLObject ⟨tn, .arr (i0 :: i1 :: rest)⟩ e =
      some (.mk tn none ((itemCls i0).getD []) none
        (if jsTruthyS (itemHref i0) then [[("href", (itemHref i0).getD "")]]
         else [])
        none none
        ((i0 :: i1 :: rest).map (fun child =>
          match child with
          | .obj r =>
            (transformMixedTagToHTMLObject ⟨tn, .arr [.obj r]⟩ e).getD
              (.mk "" none [] none [] none none [])
          | .rawStr s =>
            .mk "span" (some (resolveContent e (.rawStr s))) [] none []
              none none []))) := by
  simp [transformMixedTagToHTMLObject, transform_singleton]

/-! ## Claim C5 — renderer shape -/

/-- Helper: `String.join` over a cons. -/
theorem string_join_cons (a : String) (l : List String) :
    String.join (a :: l) = a ++ String.join l := by
  have go : ∀ (l : List String) (b : String),
      List.foldl (fun r s => r ++ s) b l =
        b ++ List.foldl (fun r s => r ++ s) "" l := by
    intro l
    induction l with
    | nil =>
      intro b
      simp
    | cons x xs ih =>
      intro b
      simp only [List.foldl_cons]
      rw [ih (b ++ x), ih ("" ++ x), String.append_assoc]
      simp
  simp only [String.join, List.foldl_cons]
  rw [go l ("" ++ a)]
  simp

/-- C5: a node with an absent (falsy) tag renders as the empty string;
otherwise the output is the open tag, the attributes in the fixed order
class, style, id, key, other props (one space between each slot), then the
content, then every child rendered recursively in order, then the closing
tag.  `renderChildren` is exactly the in-order concatenation of the
rendered children, so no child and no non-empty content is ever dropped. -/
theorem claim_C5 (d : HTMLObject) :
    (d.tag = "" → renderHTMLObject d = "") ∧
    (d.tag ≠ "" →
      renderHTMLObject d =
        "<" ++ d.tag ++ " " ++ classAttr d.cls ++ " " ++ styleAttr d.style ++
          " " ++ idAttr d.id ++ " " ++ keyAttr d.key ++ " " ++
          propsAttr d.props ++ ">" ++ d.content.getD "" ++
          renderChildren d.children ++ "</" ++ d.tag ++ ">") ∧
    (∀ cs : List HTMLObject,
      renderChildren cs = String.join (cs.map renderHTMLObject)) := by
  refine ⟨?_, ?_, ?_⟩
  · cases d with
    | mk tag content cls style props id key children =>
      intro h
      simp only [HTMLObject.tag] at h
      simp [renderHTMLObject, h]
  · cases d with
    | mk tag content cls style props id key children =>
      intro h
      simp only [HTMLObject.tag] at h
      simp [renderHTMLObject, HTMLObject.tag, HTMLObject.content,
        HTMLObject.cls, HTMLObject.style, HTMLObject.props, HTMLObject.id,
        HTMLObject.key, HTMLObject.children, h]
  · intro cs
    induction cs with
    | nil => rfl
    | cons c cs ih => simp [renderChildren, ih, string_join_cons]

/-- C5 (witness): the decomposition at a concrete node with every attribute
slot populated, a content string and two children. -/
theorem claim_C5_witness :
    exRenderNode.tag ≠ "" ∧
    renderHTMLObject exRenderNode =
      "<p class=\"c1 c2\" style=\"color: red\" id=\"pid\"  href=u>hi<span     >in</span><em     ></em></p>" := by
  refine ⟨by decide, ?_⟩
  have h := (claim_C5 exRenderNode).2.1 (by decide)
  rw [h]
  rfl

/-! ## Claim C8 — legend shape -/

/-- C8 (counterexample): a legend whose `title` field is present but empty
— the legend has a title — yet the transform emits no `h3` child (the code
tests JavaScript truthiness of `legend.title`), so the `h3` is not present
exactly when the legend has a title. -/
theorem claim_C8_counterexample :
    exLegendEmptyTitle.title = some "" ∧
    parseLegend exLegendEmptyTitle =
      .ok (.mk "div" none ["menu-item"] none [] none none
        [.mk "ul" none [] none [] none none [legendLi ⟨"#f00", "Fire"⟩]]) :=
  ⟨rfl, rfl⟩

/-- C8 (amended): for a legend carrying an `items` array the transform is a
`div` with class `menu-item` whose children are an optional `h3` holding
the title — present exactly when the legend has a NON-EMPTY title —
followed by a `ul` with one `li` per item, each `li` containing a
color-swatch `span` with inline style `background-color` set to the item's
color and a label `span` with the item's label as content. -/
theorem claim_C8_amended (lg : Legend) (its : List LegendItem)
    (h : lg.items = some its) :
    parseLegend lg = .ok (.mk "div" none ["menu-item"] none [] none none
      ((if jsTruthyS lg.title then
          [HTMLObject.mk "h3" (some (lg.title.getD "")) [] none [] none
            none []]
        else []) ++
       [.mk "ul" none [] none [] none none (its.map legendLi)])) := by
  simp [parseLegend, h]

/-- C8 (witness): the claim's example `{title:"Key", items:[{color:"#f00",
label:"Fire"}]}` produces the `h3` with content `"Key"` and one `li` with
the two spans. -/
theorem claim_C8_witness :
    parseLegend exLegend =
      .ok (.mk "div" none ["menu-item"] none [] none none
        [.mk "h3" (some "Key") [] none [] none none [],
         .mk "ul" none [] none [] none none
           [.mk "li" none [] none [] none none
              [.mk "span" none ["legend-color"]
                 (some [("background-color", "#f00")]) [] none none [],
               .mk "span" (some "Fire") ["legend-label"] none [] none
                 none []]]]) := by
  have h := claim_C8_amended exLegend [⟨"#f00", "Fire"⟩] rfl
  rw [h]
  rfl

/-! ## Claim C9 — shorthand errors -/

/-- C9: an input whose shorthand key is not `legend` makes the shorthand
transform throw (`Unsupported shorthand format`), and a legend value
lacking an `items` array throws at transform time (`Invalid legend format`)
— in both cases the result is an error, never a silent no-op, and no
node is produced. -/
theorem claim_C9 (d : ShorthandData) :
    (d.legend = none →
      parseShorthand d = .error "Unsupported shorthand format") ∧
    (∀ lg, d.legend = some lg → lg.items = none →
      parseShorthand d =
        .error "Invalid legend format: must include 'items'.") := by
  constructor
  · intro h
    simp [parseShorthand, h]
  · intro lg h hitems
    simp [parseShorthand, parseLegend, h, hitems, Except.map]

/-- C9 (witness): both error cases at concrete inputs. -/
theorem claim_C9_witness :
    parseShorthand exShorthandOther =
      .error "Unsupported shorthand format" ∧
    parseShorthand exShorthandNoItems =
      .error "Invalid legend format: must include 'items'." :=
  ⟨(claim_C9 exShorthandOther).1 rfl,
   (claim_C9 exShorthandNoItems).2 ⟨some "Key", none⟩ rfl rfl⟩

/-! ## Claim C6 — mouseleave wiring grows per fire -/

/-- C6 (code-bug evidence): the `map.on("mouseleave", ...)` subscription
sits INSIDE the mousemove handler body (src/lib/utils.ts lines 241-245), so
registration of a mousemove binding attaches no mouseleave handler at all,
and every firing of the mousemove handler attaches one more: after two
firings two mouseleave handlers are attached for the layer — the count
grows linearly with the number of firings instead of being one per
registration. -/
theorem claim_C6_eval :
    mouseleaveCount
      (registerBinding "L" exMousemoveBinding ⟨[], none⟩) "L" = 0 ∧
    mouseleaveCount
      (fireBinding "L" exMousemoveBinding exEvNoFeatures
        (fireBinding "L" exMousemoveBinding exEvNoFeatures
          (registerBinding "L" exMousemoveBinding ⟨[], none⟩))) "L" = 2 :=
  ⟨rfl, rfl⟩

/-! ## Claim C7 — initial visibility and paint (shared helper) -/

/-- Helper: `addSource` leaves the layer list alone, so the layer-existence
guard reads the same answer before and after the source registration. -/
theorem getLayer_addSource (m : MapState) (id : String) (s : SourceRec)
    (j : String) : getLayer (addSource m id s) j = getLayer m j := rfl

/-- Helper (used by claims C7 and C4): when no layer with the spec's id
exists and, for a geojson spec, the fetch succeeds, `processLayer` appends
exactly one layer record, carrying the spec's id, the layout visibility
`visibility ? "visible" : layer.visible ? "visible" : "none"`, and the
spec's paint object (empty when absent). -/
theorem processLayer_adds_layer (f : String → Option (List GeoFeature))
    (v : Bool) (m : MapState) (lay : MapLayer)
    (hno : getLayer m lay.id = false)
    (hfet : lay.dataType = DataType.geojson →
      (f (lay.url.getD "")).isSome = true) :
    ∃ lrec : LayerRec,
      (processLayer f v m lay).layers = m.layers ++ [lrec] ∧
      lrec.id = lay.id ∧
      lrec.visibility = (if v then "visible"
                         else if lay.visible.getD false then "visible"
                         else "none") ∧
      lrec.paint = lay.paint.getD [] := by
  have hno2 : ¬∃ x ∈ m.layers, x.id = lay.id := by
    intro hex
    obtain ⟨x, hx, hxid⟩ := hex
    have hg : getLayer m lay.id = true := by
      simp only [getLayer, List.any_eq_true, decide_eq_true_eq]
      exact ⟨x, hx, hxid⟩
    rw [hg] at hno
    cases hno
  cases hdt : lay.dataType with
  | geojson =>
    obtain ⟨data, hdata⟩ := Option.isSome_iff_exists.mp (hfet hdt)
    refine ⟨LayerRec.mk lay.id lay.layerType lay.id none (lay.paint.getD [])
      (if v then "visible" else if lay.visible.getD false then "visible"
       else "none"), ?_, rfl, rfl, rfl⟩
    by_cases hgs : getSource m lay.id <;>
      simp [processLayer, hdt, hdata, hgs, wireEvents, addLayer,
        addSource, getLayer, hno2]
  | raster =>
    refine ⟨LayerRec.mk lay.id "raster" lay.id none (lay.paint.getD [])
      (if v then "visible" else if lay.visible.getD false then "visible"
       else "none"), ?_, rfl, rfl, rfl⟩
    by_cases hgs : getSource m lay.id <;>
      simp [processLayer, hdt, hgs, wireEvents, addLayer,
        addSource, getLayer, hno2]
  | image =>
    refine ⟨LayerRec.mk lay.id "raster" lay.id none (lay.paint.getD [])
      (if v then "visible" else if lay.visible.getD false then "visible"
       else "none"), ?_, rfl, rfl, rfl⟩
    by_cases hgs : getSource m lay.id <;>
      simp [processLayer, hdt, hgs, wireEvents, addLayer,
        addSource, getLayer, hno2]
  | vector =>
    refine ⟨LayerRec.mk lay.id lay.layerType lay.id
      (some (lay.sourceLayer.getD lay.id)) (lay.paint.getD [])
      (if v then "visible" else if lay.visible.getD false then "visible"
       else "none"), ?_, rfl, rfl, rfl⟩
    by_cases hgs : getSource m lay.id <;>
      simp [processLayer, hdt, hgs, wireEvents, addLayer,
        addSource, getLayer, hno2]

/-- C7: for every registered layer, the initial layout visibility passed to
the engine is `"visible"` when the caller's defaultVisible argument is
true, otherwise `"visible"` exactly when the spec's `visible` field is true
and `"none"` otherwise; and the layer's paint is the spec's paint object,
or the empty object when the spec has none. -/
theorem claim_C7 (f : String → Option (List GeoFeature)) (v : Bool)
    (m : MapState) (lay : MapLayer)
    (hno : getLayer m lay.id = false)
    (hfet : lay.dataType = DataType.geojson →
      (f (lay.url.getD "")).isSome = true) :
    ∃ lrec : LayerRec,
      (processLayer f v m lay).layers = m.layers ++ [lrec] ∧
      lrec.id = lay.id ∧
      lrec.visibility = (if v then "visible"
                         else if lay.visible.getD false then "visible"
                         else "none") ∧
      lrec.paint = lay.paint.getD [] :=
  processLayer_adds_layer f v m lay hno hfet

/-- C7 (witness): the raster example on a fresh map without the override
gets visibility `"none"` (its `visible` field is unset) and empty paint. -/
theorem claim_C7_witness :
    ∃ lrec : LayerRec,
      (processLayer exFetchEnv false {} exRasterLayer).layers =
        ([] : List LayerRec) ++ [lrec] ∧
      lrec.id = exRasterLayer.id ∧
      lrec.visibility = (if false then "visible"
                         else if exRasterLayer.visible.getD false then
                           "visible"
                         else "none") ∧
      lrec.paint = exRasterLayer.paint.getD [] :=
  claim_C7 exFetchEnv false {} exRasterLayer rfl
    (fun h => absurd h (by decide))

/-! ## Claim C3 — idempotent registration -/

/-- Helper: a lookup that succeeds still succeeds after appending. -/
theorem lookup_isSome_append (l l2 : List (String × SourceRec)) (j : String)
    (h : (l.lookup j).isSome = true) :
    ((l ++ l2).lookup j).isSome = true := by
  induction l with
  | nil => simp [List.lookup] at h
  | cons x xs ih =>
    obtain ⟨k, v⟩ := x
    by_cases hk : j = k
    · simp [List.lookup, hk]
    · have hbeq : (j == k) = false := by simp [hk]
      simp only [List.cons_append, List.lookup, hbeq] at h ⊢
      exact ih h

/-- Helper: a lookup always finds a key appended at the end. -/
theorem lookup_append_self (l : List (String × SourceRec)) (id : String)
    (s : SourceRec) : ((l ++ [(id, s)]).lookup id).isSome = true := by
  induction l with
  | nil => simp [List.lookup]
  | cons x xs ih =>
    obtain ⟨k, v⟩ := x
    by_cases hk : id = k
    · simp [List.lookup, hk]
    · have hbeq : (id == k) = false := by simp [hk]
      simp only [List.cons_append, List.lookup, hbeq]
      exact ih

/-- Helper: `getSource` reads only the source list. -/
theorem getSource_ext (m1 m2 : MapState) (j : String)
    (h : m1.sources = m2.sources) : getSource m1 j = getSource m2 j := by
  simp [getSource, h]

/-- Helper: `getLayer` reads only the layer list. -/
theorem getLayer_ext (m1 m2 : MapState) (j : String)
    (h : m1.layers = m2.layers) : getLayer m1 j = getLayer m2 j := by
  simp [getLayer, h]

/-- Helper: an absent source id is an id with zero registrations. -/
theorem getSource_false_iff (m : MapState) (id : String) :
    getSource m id = false ↔ sCount m id = 0 := by
  simp only [getSource, sCount]
  induction m.sources with
  | nil => simp [List.lookup]
  | cons x xs ih =>
    obtain ⟨k, v⟩ := x
    by_cases hk : id = k
    · subst hk
      simp [List.lookup, List.filter_cons]
    · have hbeq : (id == k) = false := by simp [hk]
      have hk2 : ¬(k = id) := fun hh => hk hh.symm
      simp only [List.lookup, hbeq, List.filter_cons]
      rw [if_neg (by simpa using hk2)]
      exact ih

/-- Helper: an absent layer id is an id with zero registrations. -/
theorem getLayer_false_iff (m : MapState) (id : String) :
    getLayer m id = false ↔ lCount m id = 0 := by
  simp only [getLayer, lCount, List.any_eq_false, List.length_eq_zero,
    List.filter_eq_nil_iff, decide_eq_true_eq]

/-- Helper: a present source id has at least one registration. -/
theorem getSource_true_iff (m : MapState) (id : String) :
    getSource m id = true ↔ sCount m id ≠ 0 := by
  rw [← Bool.not_eq_false, not_iff_not.symm]
  simp [getSource_false_iff]

/-- Helper: a present layer id has at least one registration. -/
theorem getLayer_true_iff (m : MapState) (id : String) :
    getLayer m id = true ↔ lCount m id ≠ 0 := by
  rw [← Bool.not_eq_false, not_iff_not.symm]
  simp [getLayer_false_iff]

/-- Helper: processing a spec never touches the source list when the
spec's id already has a source ("registration under a used id is a
no-op"). -/
theorem processLayer_sources_of_present (f : String → Option (List GeoFeature))
    (v : Bool) (m : MapState) (lay : MapLayer)
    (h : getSource m lay.id = true) :
    (processLayer f v m lay).sources = m.sources := by
  cases hdt : lay.dataType with
  | geojson =>
    cases hf : f (lay.url.getD "") with
    | none => simp [processLayer, hdt, hf, wireEvents]
    | some data =>
      by_cases hl : getLayer m lay.id <;>
        simp [processLayer, hdt, hf, h, hl, wireEvents, addLayer]
  | raster =>
    by_cases hl : getLayer m lay.id <;>
      simp [processLayer, hdt, h, hl, wireEvents, addLayer]
  | image =>
    by_cases hl : getLayer m lay.id <;>
      simp [processLayer, hdt, h, hl, wireEvents, addLayer]
  | vector =>
    by_cases hl : getLayer m lay.id <;>
      simp [processLayer, hdt, h, hl, wireEvents, addLayer]

/-- Helper: processing a spec never touches the layer list when the spec's
id already has a layer. -/
theorem processLayer_layers_of_present (f : String → Option (List GeoFeature))
    (v : Bool) (m : MapState) (lay : MapLayer)
    (h : getLayer m lay.id = true) :
    (processLayer f v m lay).layers = m.layers := by
  have hany : (m.layers.any fun l => decide (l.id = lay.id)) = true := by
    simpa [getLayer] using h
  cases hdt : lay.dataType with
  | geojson =>
    cases hf : f (lay.url.getD "") with
    | none => simp [processLayer, hdt, hf, wireEvents]
    | some data =>
      by_cases hs : getSource m lay.id <;>
        simp [processLayer, hdt, hf, hs, wireEvents, addSource, getLayer,
          hany]
  | raster =>
    by_cases hs : getSource m lay.id <;>
      simp [processLayer, hdt, hs, wireEvents, addSource, getLayer, hany]
  | image =>
    by_cases hs : getSource m lay.id <;>
      simp [processLayer, hdt, hs, wireEvents, addSource, getLayer, hany]
  | vector =>
    by_cases hs : getSource m lay.id <;>
      simp [processLayer, hdt, hs, wireEvents, addSource, getLayer, hany]

/-- Helper: the source list after one spec is untouched when the spec's id
already has a source, untouched when a geojson fetch fails, and otherwise —
the id being absent — extended by exactly one entry under the spec's id. -/
theorem processLayer_sources_char (f : String → Option (List GeoFeature))
    (v : Bool) (m : MapState) (lay : MapLayer) :
    (getSource m lay.id = true ∧
      (processLayer f v m lay).sources = m.sources) ∨
    (getSource m lay.id = false ∧ lay.dataType = DataType.geojson ∧
      f (lay.url.getD "") = none ∧
      (processLayer f v m lay).sources = m.sources) ∨
    (getSource m lay.id = false ∧
      ∃ s, (processLayer f v m lay).sources = m.sources ++ [(lay.id, s)]) := by
  cases hdt : lay.dataType with
  | geojson =>
    cases hf : f (lay.url.getD "") with
    | none =>
      by_cases hs : getSource m lay.id
      · exact Or.inl ⟨hs, processLayer_sources_of_present f v m lay hs⟩
      · exact Or.inr (Or.inl ⟨by simpa using hs, rfl, rfl,
          by simp [processLayer, hdt, hf, wireEvents]⟩)
    | some data =>
      by_cases hs : getSource m lay.id
      · exact Or.inl ⟨hs, processLayer_sources_of_present f v m lay hs⟩
      · refine Or.inr (Or.inr ⟨by simpa using hs,
          SourceRec.geojsonSrc (data.map completeFeature), ?_⟩)
        by_cases hl : (m.layers.any fun l => decide (l.id = lay.id)) = true <;>
          simp [processLayer, hdt, hf, hs, hl, wireEvents, addLayer,
            addSource, getLayer]
  | raster =>
    by_cases hs : getSource m lay.id
    · exact Or.inl ⟨hs, processLayer_sources_of_present f v m lay hs⟩
    · refine Or.inr (Or.inr ⟨by simpa using hs,
        SourceRec.rasterSrc [lay.url.getD ""] (jsOrNat lay.tileSize 256), ?_⟩)
      by_cases hl : (m.layers.any fun l => decide (l.id = lay.id)) = true <;>
        simp [processLayer, hdt, hs, hl, wireEvents, addLayer, addSource,
          getLayer]
  | image =>
    by_cases hs : getSource m lay.id
    · exact Or.inl ⟨hs, processLayer_sources_of_present f v m lay hs⟩
    · refine Or.inr (Or.inr ⟨by simpa using hs,
        SourceRec.imageSrc (lay.url.getD "") (lay.coordinates.getD []), ?_⟩)
      by_cases hl : (m.layers.any fun l => decide (l.id = lay.id)) = true <;>
        simp [processLayer, hdt, hs, hl, wireEvents, addLayer, addSource,
          getLayer]
  | vector =>
    by_cases hs : getSource m lay.id
    · exact Or.inl ⟨hs, processLayer_sources_of_present f v m lay hs⟩
    · refine Or.inr (Or.inr ⟨by simpa using hs,
        SourceRec.vectorSrc [lay.url.getD ""] (jsOrNat lay.minzoom 0)
          (jsOrNat lay.maxzoom 22), ?_⟩)
      by_cases hl : (m.layers.any fun l => decide (l.id = lay.id)) = true <;>
        simp [processLayer, hdt, hs, hl, wireEvents, addLayer, addSource,
          getLayer]

/-- Helper: the layer list after one spec is untouched when the spec's id
already has a layer, untouched when a geojson fetch fails, and otherwise
extended by exactly one record carrying the spec's id. -/
theorem processLayer_layers_char (f : String → Option (List GeoFeature))
    (v : Bool) (m : MapState) (lay : MapLayer) :
    (getLayer m lay.id = true ∧
      (processLayer f v m lay).layers = m.layers) ∨
    (getLayer m lay.id = false ∧ lay.dataType = DataType.geojson ∧
      f (lay.url.getD "") = none ∧
      (processLayer f v m lay).layers = m.layers) ∨
    (getLayer m lay.id = false ∧
      ∃ lrec : LayerRec, lrec.id = lay.id ∧
        (processLayer f v m lay).layers = m.layers ++ [lrec]) := by
  by_cases hl : getLayer m lay.id
  · exact Or.inl ⟨hl, processLayer_layers_of_present f v m lay hl⟩
  · by_cases hgeo : lay.dataType = DataType.geojson
    · cases hf : f (lay.url.getD "") with
      | none =>
        exact Or.inr (Or.inl ⟨by simpa using hl, hgeo, rfl,
          by simp [processLayer, hgeo, hf, wireEvents]⟩)
      | some data =>
        obtain ⟨lrec, hrec, hid, _, _⟩ := processLayer_adds_layer f v m lay
          (by simpa using hl) (fun _ => by simp [hf])
        exact Or.inr (Or.inr ⟨by simpa using hl, lrec, hid, hrec⟩)
    · obtain ⟨lrec, hrec, hid, _, _⟩ := processLayer_adds_layer f v m lay
        (by simpa using hl) (fun h => absurd h hgeo)
      exact Or.inr (Or.inr ⟨by simpa using hl, lrec, hid, hrec⟩)

/-- Helper: filtering across an appended one-entry source list. -/
theorem sCount_append_entry (m : MapState) (id : String) (s : SourceRec)
    (j : String) :
    sCount { m with sources := m.sources ++ [(id, s)] } j =
      sCount m j + (if id = j then 1 else 0) := by
  by_cases h : id = j <;>
    simp [sCount, List.filter_append, List.filter_cons, h]

/-- Helper: filtering across an appended one-entry layer list. -/
theorem lCount_append_entry (m : MapState) (lrec : LayerRec) (j : String) :
    lCount { m with layers := m.layers ++ [lrec] } j =
      lCount m j + (if lrec.id = j then 1 else 0) := by
  by_cases h : lrec.id = j <;>
    simp [lCount, List.filter_append, List.filter_cons, h]

/-- Helper: processing one spec leaves every source count unchanged, except
that an absent spec id (count zero) may rise to exactly one. -/
theorem sCount_processLayer (f : String → Option (List GeoFeature))
    (v : Bool) (m : MapState) (lay : MapLayer) (j : String) :
    sCount (processLayer f v m lay) j = sCount m j ∨
    (j = lay.id ∧ sCount m lay.id = 0 ∧
      sCount (processLayer f v m lay) lay.id = 1) := by
  rcases processLayer_sources_char f v m lay with ⟨_, h⟩ | ⟨_, _, _, h⟩ |
    ⟨habs, s, h⟩
  · exact Or.inl (by simp [sCount, h])
  · exact Or.inl (by simp [sCount, h])
  · have h0 : sCount m lay.id = 0 := (getSource_false_iff m lay.id).mp habs
    have hc : sCount (processLayer f v m lay) j =
        sCount m j + (if lay.id = j then 1 else 0) := by
      have := sCount_append_entry m lay.id s j
      simp only [sCount] at this ⊢
      rw [h]
      simpa using this
    by_cases hj : lay.id = j
    · subst hj
      exact Or.inr ⟨rfl, h0, by simp [hc, h0]⟩
    · exact Or.inl (by simp [hc, hj])

/-- Helper: processing one spec leaves every layer count unchanged, except
that an absent spec id may rise to exactly one. -/
theorem lCount_processLayer (f : String → Option (List GeoFeature))
    (v : Bool) (m : MapState) (lay : MapLayer) (j : String) :
    lCount (processLayer f v m lay) j = lCount m j ∨
    (j = lay.id ∧ lCount m lay.id = 0 ∧
      lCount (processLayer f v m lay) lay.id = 1) := by
  rcases processLayer_layers_char f v m lay with ⟨_, h⟩ | ⟨_, _, _, h⟩ |
    ⟨habs, lrec, hid, h⟩
  · exact Or.inl (by simp [lCount, h])
  · exact Or.inl (by simp [lCount, h])
  · have h0 : lCount m lay.id = 0 := (getLayer_false_iff m lay.id).mp habs
    have hc : lCount (processLayer f v m lay) j =
        lCount m j + (if lrec.id = j then 1 else 0) := by
      have := lCount_append_entry m lrec j
      simp only [lCount] at this ⊢
      rw [h]
      simpa using this
    by_cases hj : lay.id = j
    · subst hj
      exact Or.inr ⟨rfl, h0, by simp [hc, hid, h0]⟩
    · exact Or.inl (by simp [hc, hid, hj])

/-- Helper: the engine invariant (at most one source and layer per id) is
preserved by processing a spec. -/
theorem processLayer_wf (f : String → Option (List GeoFeature)) (v : Bool)
    (m : MapState) (lay : MapLayer) (hwf : mapWF m) :
    mapWF (processLayer f v m lay) := by
  intro j
  constructor
  · rcases sCount_processLayer f v m lay j with h | ⟨hj, _, h1⟩
    · rw [h]
      exact (hwf j).1
    · subst hj
      rw [h1]
  · rcases lCount_processLayer f v m lay j with h | ⟨hj, _, h1⟩
    · rw [h]
      exact (hwf j).2
    · subst hj
      rw [h1]

/-- Helper: presence of a source id is never lost by processing a spec. -/
theorem processLayer_source_mono (f : String → Option (List GeoFeature))
    (v : Bool) (m : MapState) (lay : MapLayer) (j : String)
    (h : getSource m j = true) :
    getSource (processLayer f v m lay) j = true := by
  rcases processLayer_sources_char f v m lay with ⟨_, hs⟩ | ⟨_, _, _, hs⟩ |
    ⟨_, s, hs⟩
  · rw [getSource_ext _ m j hs]
    exact h
  · rw [getSource_ext _ m j hs]
    exact h
  · simp only [getSource, hs]
    exact lookup_isSome_append _ _ _ (by simpa [getSource] using h)

/-- Helper: presence of a layer id is never lost by processing a spec. -/
theorem processLayer_layer_mono (f : String → Option (List GeoFeature))
    (v : Bool) (m : MapState) (lay : MapLayer) (j : String)
    (h : getLayer m j = true) :
    getLayer (processLayer f v m lay) j = true := by
  rcases processLayer_layers_char f v m lay with ⟨_, hl⟩ | ⟨_, _, _, hl⟩ |
    ⟨_, lrec, _, hl⟩
  · rw [getLayer_ext _ m j hl]
    exact h
  · rw [getLayer_ext _ m j hl]
    exact h
  · simp only [getLayer, hl, List.any_append]
    simp [getLayer] at h
    simp [List.any_eq_true]
    left
    exact h

/-- Helper: after processing a spec whose fetch (if any) succeeds, both its
source and its layer are present. -/
theorem processLayer_present_after (f : String → Option (List GeoFeature))
    (v : Bool) (m : MapState) (lay : MapLayer)
    (hfet : lay.dataType = DataType.geojson →
      (f (lay.url.getD "")).isSome = true) :
    getSource (processLayer f v m lay) lay.id = true ∧
    getLayer (processLayer f v m lay) lay.id = true := by
  constructor
  · rcases processLayer_sources_char f v m lay with ⟨hp, hs⟩ |
      ⟨_, hgeo, hnone, _⟩ | ⟨_, s, hs⟩
    · rw [getSource_ext _ m _ hs]
      exact hp
    · have hcontra := hfet hgeo
      rw [hnone] at hcontra
      simp at hcontra
    · simp only [getSource, hs]
      exact lookup_append_self _ _ _
  · rcases processLayer_layers_char f v m lay with ⟨hp, hl⟩ |
      ⟨_, hgeo, hnone, _⟩ | ⟨_, lrec, hid, hl⟩
    · rw [getLayer_ext _ m _ hl]
      exact hp
    · have hcontra := hfet hgeo
      rw [hnone] at hcontra
      simp at hcontra
    · simp only [getLayer, hl, List.any_append]
      simp [List.any_eq_true, hid]

/-- Helper: folding registration over a group preserves presence of any
source and layer id. -/
theorem fold_present_mono (f : String → Option (List GeoFeature)) (v : Bool)
    (g : List MapLayer) :
    ∀ (m : MapState) (j : String),
      (getSource m j = true → getSource (g.foldl (processLayer f v) m) j =
        true) ∧
      (getLayer m j = true → getLayer (g.foldl (processLayer f v) m) j =
        true) := by
  induction g with
  | nil => exact fun m j => ⟨fun h => h, fun h => h⟩
  | cons lay rest ih =>
    intro m j
    constructor
    · intro h
      exact (ih (processLayer f v m lay) j).1
        (processLayer_source_mono f v m lay j h)
    · intro h
      exact (ih (processLayer f v m lay) j).2
        (processLayer_layer_mono f v m lay j h)

/-- Helper: after one materialize pass in which every geojson fetch
succeeds, every spec of the group has its source and layer present. -/
theorem fold_registers (f : String → Option (List GeoFeature)) (v : Bool)
    (g : List MapLayer) :
    ∀ (m : MapState),
      (∀ lay ∈ g, lay.dataType = DataType.geojson →
        (f (lay.url.getD "")).isSome = true) →
      ∀ lay ∈ g, getSource (g.foldl (processLayer f v) m) lay.id = true ∧
        getLayer (g.foldl (processLayer f v) m) lay.id = true := by
  induction g with
  | nil => intro m _ lay hmem; cases hmem
  | cons lay0 rest ih =>
    intro m hf lay hmem
    rcases List.mem_cons.mp hmem with hEq | hmem2
    · subst hEq
      have hp := processLayer_present_after f v m lay
        (hf lay (List.mem_cons_self _ _))
      exact ⟨(fold_present_mono f v rest _ lay.id).1 hp.1,
        (fold_present_mono f v rest _ lay.id).2 hp.2⟩
    · exact ih (processLayer f v m lay0)
        (fun l hl hg => hf l (List.mem_cons_of_mem _ hl) hg) lay hmem2

/-- Helper: the engine invariant is preserved by a whole materialize
pass. -/
theorem fold_wf (f : String → Option (List GeoFeature)) (v : Bool)
    (g : List MapLayer) :
    ∀ (m : MapState), mapWF m → mapWF (g.foldl (processLayer f v) m) := by
  induction g with
  | nil => exact fun m h => h
  | cons lay rest ih =>
    intro m h
    exact ih (processLayer f v m lay) (processLayer_wf f v m lay h)

/-- Helper: a materialize pass over a group all of whose ids already have a
source and a layer changes neither the source list nor the layer list. -/
theorem fold_noop (f : String → Option (List GeoFeature)) (v : Bool)
    (g : List MapLayer) :
    ∀ (m : MapState),
      (∀ lay ∈ g, getSource m lay.id = true ∧ getLayer m lay.id = true) →
      (g.foldl (processLayer f v) m).sources = m.sources ∧
      (g.foldl (processLayer f v) m).layers = m.layers := by
  induction g with
  | nil => exact fun m _ => ⟨rfl, rfl⟩
  | cons lay rest ih =>
    intro m hpres
    have h0 := hpres lay (List.mem_cons_self _ _)
    have hsrc := processLayer_sources_of_present f v m lay h0.1
    have hlayrs := processLayer_layers_of_present f v m lay h0.2
    have hrest : ∀ l ∈ rest, getSource (processLayer f v m lay) l.id = true ∧
        getLayer (processLayer f v m lay) l.id = true := by
      intro l hl
      have hp := hpres l (List.mem_cons_of_mem _ hl)
      exact ⟨by rw [getSource_ext _ m _ hsrc]; exact hp.1,
        by rw [getLayer_ext _ m _ hlayrs]; exact hp.2⟩
    have hih := ih (processLayer f v m lay) hrest
    exact ⟨hih.1.trans hsrc, hih.2.trans hlayrs⟩

/-- C3: registration is idempotent — a spec's source (respectively layer)
is added only when no source (layer) with that id exists, so registering
under a used id leaves the respective list untouched (a no-op, never an
error); and, on an engine-valid map with all geojson fetches succeeding,
a second materialize call with the same group changes neither sources nor
layers, leaving exactly one source and one layer per spec id after either
call. -/
theorem claim_C3 (f : String → Option (List GeoFeature)) (m : MapState)
    (g : List MapLayer) (v1 v2 : Bool) (hwf : mapWF m)
    (hf : ∀ lay ∈ g, lay.dataType = DataType.geojson →
      (f (lay.url.getD "")).isSome = true) :
    (∀ lay : MapLayer, getSource m lay.id = true →
      (processLayer f v1 m lay).sources = m.sources) ∧
    (∀ lay : MapLayer, getLayer m lay.id = true →
      (processLayer f v1 m lay).layers = m.layers) ∧
    ((loadMapLayers f ((loadMapLayers f m g v1).1) g v2).1.sources =
      (loadMapLayers f m g v1).1.sources) ∧
    ((loadMapLayers f ((loadMapLayers f m g v1).1) g v2).1.layers =
      (loadMapLayers f m g v1).1.layers) ∧
    (∀ lay ∈ g, sCount (loadMapLayers f m g v1).1 lay.id = 1 ∧
      lCount (loadMapLayers f m g v1).1 lay.id = 1) := by
  have hreg := fold_registers f v1 g m hf
  have hwf1 := fold_wf f v1 g m hwf
  refine ⟨fun lay h => processLayer_sources_of_present f v1 m lay h,
    fun lay h => processLayer_layers_of_present f v1 m lay h, ?_, ?_, ?_⟩
  · exact (fold_noop f v2 g _ hreg).1
  · exact (fold_noop f v2 g _ hreg).2
  · intro lay hmem
    have hp := hreg lay hmem
    obtain ⟨hb1, hb2⟩ := hwf1 lay.id
    simp only [loadMapLayers]
    constructor
    · have hne := (getSource_true_iff _ lay.id).mp hp.1
      omega
    · have hne := (getLayer_true_iff _ lay.id).mp hp.2
      omega

/-- C3 (witness): one raster spec on a fresh map — after materialize its id
has exactly one source and one layer. -/
theorem claim_C3_witness :
    sCount (loadMapLayers exFetchEnv {} [exRasterLayer] false).1 "r1" = 1 ∧
    lCount (loadMapLayers exFetchEnv {} [exRasterLayer] false).1 "r1" = 1 := by
  have h := claim_C3 exFetchEnv {} [exRasterLayer] false false
    (fun id => ⟨by simp [sCount], by simp [lCount]⟩)
    (by
      intro lay hmem hgeo
      simp only [List.mem_singleton] at hmem
      subst hmem
      cases hgeo)
  exact h.2.2.2.2 exRasterLayer (List.mem_singleton_self _)

/-! ## Claim C4 — toggle control vs layout visibility -/

/-- Helper: setting the layout visibility of an existing layer makes the
subsequent read return exactly the value written. -/
theorem find_set_vis (ls : List LayerRec) (id vis : String)
    (h : (ls.find? (fun l => l.id = id)).isSome = true) :
    ((ls.map (fun l => if l.id = id then { l with visibility := vis }
        else l)).find? (fun l => l.id = id)).map (fun l => l.visibility) =
      some vis := by
  induction ls with
  | nil => simp at h
  | cons x xs ih =>
    by_cases hx : x.id = id
    · simp [hx]
    · simp only [List.map_cons, if_neg hx]
      rw [List.find?_cons_of_neg _ (by simp [hx])]
      rw [List.find?_cons_of_neg _ (by simp [hx])] at h
      exact ih h

/-- Helper: `setLayoutProperty` then `getLayoutProperty` on a present
layer. -/
theorem getLayoutVisibility_set (m : MapState) (id vis : String)
    (h : (getLayoutVisibility m id).isSome = true) :
    getLayoutVisibility (setLayoutVisibility m id vis) id = some vis := by
  simp only [getLayoutVisibility, setLayoutVisibility]
  apply find_set_vis
  simpa [getLayoutVisibility] using h

/-- Helper: one click establishes the lockstep invariant from any state in
which the controlled layer exists. -/
theorem clickToggle_inv (s : C4State)
    (h : (getLayoutVisibility s.mapSt s.button.layerId).isSome = true) :
    toggleInv (clickToggle s) := by
  by_cases hv : getLayoutVisibility s.mapSt s.button.layerId = some "visible"
  · simp [toggleInv, clickToggle, hv,
      getLayoutVisibility_set s.mapSt s.button.layerId "none" h]
  · simp [toggleInv, clickToggle, hv,
      getLayoutVisibility_set s.mapSt s.button.layerId "visible" h]

/-- Helper: a click never removes the controlled layer. -/
theorem clickToggle_isSome (s : C4State)
    (h : (getLayoutVisibility s.mapSt s.button.layerId).isSome = true) :
    (getLayoutVisibility (clickToggle s).mapSt
      (clickToggle s).button.layerId).isSome = true := by
  by_cases hv : getLayoutVisibility s.mapSt s.button.layerId = some "visible" <;>
    simp [clickToggle, hv,
      getLayoutVisibility_set s.mapSt s.button.layerId "none" h,
      getLayoutVisibility_set s.mapSt s.button.layerId "visible" h]

/-- Helper: the layout visibility of the single-spec initial state. -/
theorem initToggleState_visibility (f : String → Option (List GeoFeature))
    (lay : MapLayer) (v : Bool)
    (hfet : lay.dataType = DataType.geojson →
      (f (lay.url.getD "")).isSome = true) :
    getLayoutVisibility (initToggleState f lay v).mapSt lay.id =
      some (if v then "visible"
            else if lay.visible.getD false then "visible" else "none") := by
  obtain ⟨lrec, hl, hid, hvis, _⟩ :=
    processLayer_adds_layer f v {} lay rfl hfet
  have hms : (initToggleState f lay v).mapSt.layers = [lrec] := by
    have : (initToggleState f lay v).mapSt = processLayer f v {} lay := rfl
    rw [this, hl]
    rfl
  rw [getLayoutVisibility, hms]
  simp [List.find?, hid, hvis]

/-- C4 (counterexample): a spec with `toggle = true` and `visible` unset,
materialized with `defaultVisible = true` — immediately after materialize
the layer's layout visibility is `"visible"` (the override forces it) while
the control does NOT carry the active class (it is set from
`layer.visible === true` only), so control and layer diverge at a reachable
state. -/
theorem claim_C4_counterexample :
    exRasterLayer.toggle = true ∧
    exRasterLayer.visible ≠ some true ∧
    getLayoutVisibility (initToggleState exFetchEnv exRasterLayer true).mapSt
      "r1" = some "visible" ∧
    (initToggleState exFetchEnv exRasterLayer true).button.className = "" :=
  ⟨rfl, by decide, rfl, rfl⟩

/-- C4 (amended): for every spec with `toggle = true` (and, for geojson
specs, a successful fetch), the control's active class agrees with the
layer's layout visibility at the state immediately after materialize
PROVIDED the caller's defaultVisible override is false or the spec's
`visible` field is true, and at every state reached by one or more clicks
regardless of the override (each click writes class and visibility in
lockstep). -/
theorem claim_C4_amended (f : String → Option (List GeoFeature))
    (lay : MapLayer) (v : Bool) (htog : lay.toggle = true)
    (hfet : lay.dataType = DataType.geojson →
      (f (lay.url.getD "")).isSome = true) :
    (v = false ∨ lay.visible = some true →
      toggleInv (initToggleState f lay v)) ∧
    (∀ n, 1 ≤ n →
      toggleInv (Nat.iterate clickToggle n (initToggleState f lay v))) := by
  have hvis := initToggleState_visibility f lay v hfet
  have hbid : (initToggleState f lay v).button.layerId = lay.id := rfl
  constructor
  · intro hv0
    simp only [toggleInv, hbid, hvis]
    rcases hv0 with hv0 | hv0
    · subst hv0
      rcases hlv : lay.visible with _ | b
      · simp [initToggleState, hlv]
      · cases b <;> simp [initToggleState, hlv]
    · cases v <;> simp [initToggleState, hv0]
  · have hS0 : (getLayoutVisibility (initToggleState f lay v).mapSt
        (initToggleState f lay v).button.layerId).isSome = true := by
      rw [hbid, hvis]
      rfl
    have hSn : ∀ k, (getLayoutVisibility
        (Nat.iterate clickToggle k (initToggleState f lay v)).mapSt
        (Nat.iterate clickToggle k
          (initToggleState f lay v)).button.layerId).isSome = true := by
      intro k
      induction k with
      | zero => exact hS0
      | succ k ih =>
        rw [Function.iterate_succ_apply']
        exact clickToggle_isSome _ ih
    intro n hn
    obtain ⟨k, rfl⟩ : ∃ k, n = k + 1 := ⟨n - 1, by omega⟩
    rw [Function.iterate_succ_apply']
    exact clickToggle_inv _ (hSn k)

/-- C4 (witness): lockstep holds right after materialize without the
override, right after materialize with the override on a spec whose
`visible` field is true, and after two clicks with the override. -/
theorem claim_C4_witness :
    toggleInv (initToggleState exFetchEnv exRasterLayer false) ∧
    toggleInv (initToggleState exFetchEnv exVisibleRasterLayer true) ∧
    toggleInv (Nat.iterate clickToggle 2
      (initToggleState exFetchEnv exRasterLayer true)) :=
  ⟨(claim_C4_amended exFetchEnv exRasterLayer false rfl
      (fun h => absurd h (by decide))).1 (Or.inl rfl),
   (claim_C4_amended exFetchEnv exVisibleRasterLayer true rfl
      (fun h => absurd h (by decide))).1 (Or.inr rfl),
   (claim_C4_amended exFetchEnv exRasterLayer true rfl
      (fun h => absurd h (by decide))).2 2 (by omega)⟩
